import Mathlib

/-!
Verification of the vimbax_python_collections scripts.

Shallow embedding of the three Python scripts:
  * `src/VmbPy.202503/asynchronous_grab_opencv_12bit_rgb_tiff.py` (the "tiff" script)
  * `src/vimbax/asynchronous_grab_opencv_roi.py`                  (the "roi" script)
  * `src/synchronous_grab_dark_current.py`                        (the "dark-current" script)

Side effects (printing, `sys.exit`, `cv2.imshow`, file writes) are reified as
data in result types; external collaborators (the vmbpy driver, OpenCV) are
modelled as parameters or abstract data, following the spec's scope section.
-/

namespace Vimbax

/-! ## Command-line interface (`parse_args`, `get_camera`, `abort`)

All three scripts share a verbatim-identical `parse_args` / `get_camera` /
`abort` trio; the embedding below is of that shared code.

`abort(reason, return_code=1, usage=False)` prints and calls
`sys.exit(return_code)`; `print_usage()` prints the usage text.  We reify a
terminated process as an exit code plus whether the usage text was printed. -/

/-- Outcome of `parse_args` (and of `get_camera`): either the process has
exited via `sys.exit` (recording the exit code and whether usage was printed),
or execution proceeds with a value. -/
inductive CliOutcome (α : Type) where
  | exited (code : Nat) (usagePrinted : Bool)
  | proceed (value : α)
  deriving DecidableEq, Repr

/-- The `for arg in args: if arg in ('/h', '-h')` scan of `parse_args`:
whether any argument is one of the two help flags (the loop exits at the
first hit, which is observationally the same as `any`). -/
def argsHasHelp (args : List String) : Bool :=
  args.any (fun a => a = "/h" || a = "-h")

/-- `parse_args` (identical in all three scripts): scan all arguments for the
help flags first (printing usage and exiting 0 on a hit); then abort with
exit code 2 and a usage message when more than one argument remains; else
return `None` for zero arguments or the single argument. -/
def parse_args (args : List String) : CliOutcome (Option String) :=
  if argsHasHelp args then
    .exited 0 true
  else if args.length > 1 then
    .exited 2 true
  else
    .proceed args.head?

/-- The enumeration state of the driver: the ordered list of accessible
camera ids, as returned by `get_all_cameras` / accepted by
`get_camera_by_id`. -/
structure CameraEnv where
  cameras : List String
  deriving DecidableEq, Repr

/-- `get_camera`: with an explicit id, look it up (aborting with the default
exit code 1 when `get_camera_by_id` raises); with no id, take the first
enumerated camera, aborting with the default exit code 1 when none are
accessible.  `abort` is called without `usage=True` here. -/
def get_camera (camera_id : Option String) (env : CameraEnv) : CliOutcome String :=
  match camera_id with
  | some cid =>
      if env.cameras.contains cid then .proceed cid
      else .exited 1 false
  | none =>
      match env.cameras with
      | [] => .exited 1 false
      | c :: _ => .proceed c

/-! ## Bounded frame queue (`Queue(10)` in the roi script's `Handler`)

`queue.Queue` with a positive capacity: `put(item, True)` blocks while the
queue is full and then appends at the tail; `get(True)` blocks while the
queue is empty and then removes the head.  We model a trace of operations
executed against the queue; a blocked operation does not complete, so it
leaves the state unchanged in the trace (in particular a blocked `put` has
not accepted its item and a blocked `get` returns nothing). -/

/-- Capacity of `self.display_queue = Queue(10)` in the roi script. -/
def display_queue_capacity : Nat := 10

/-- One queue operation of a trace. -/
inductive QOp where
  | push (v : Nat)
  | pop
  deriving DecidableEq, Repr

/-- Queue trace state: current buffer (head = next item out), the items
accepted by completed pushes in order, and the items returned by completed
pops in order. -/
structure QState where
  buf : List Nat
  accepted : List Nat
  popped : List Nat
  deriving DecidableEq, Repr

/-- Initial (empty) queue state. -/
def qInit : QState := ⟨[], [], []⟩

/-- Execute one operation against a queue of capacity `C`.  A push onto a
full queue blocks (state unchanged, item not accepted); a pop from an empty
queue blocks (state unchanged, nothing returned). -/
def qStep (C : Nat) (s : QState) (op : QOp) : QState :=
  match op with
  | .push v =>
      if s.buf.length < C then
        { s with buf := s.buf ++ [v], accepted := s.accepted ++ [v] }
      else s
  | .pop =>
      match s.buf with
      | [] => s
      | x :: rest => { s with buf := rest, popped := s.popped ++ [x] }

/-- Execute a whole trace of operations from the empty queue. -/
def qRun (C : Nat) (ops : List QOp) : QState :=
  ops.foldl (qStep C) qInit

/-! ## Pixel-format negotiation (`setup_pixel_format`)

The vmbpy format tables (`COLOR_PIXEL_FORMATS`, `MONO_PIXEL_FORMATS`,
`get_convertible_formats`, `intersect_pixel_formats`) are library
collaborators outside the repository; we parametrise over them: formats are
an arbitrary type with decidable equality, with predicates `isColor` /
`isMono` and a convertibility test.  `intersect_pixel_formats(cam_formats, S)`
keeps, in camera order, the camera formats belonging to `S`. -/

/-- Outcome of `setup_pixel_format`: a format was set on the camera, or the
process aborted via `abort(...)` (default exit code 1), or an uncaught
`IndexError` escaped (Python list indexing out of range). -/
inductive NegotiationResult (α : Type) where
  | selected (f : α)
  | aborted (code : Nat)
  | indexError
  deriving DecidableEq, Repr

/-- `setup_pixel_format` of the tiff script: native target first, else the
first convertible color format, else the first convertible mono format, else
`abort(...)` with the default exit code 1. -/
def setup_pixel_format_tiff {α : Type} [DecidableEq α]
    (isColor isMono : α → Bool) (convertible : α → α → Bool)
    (target : α) (cam_formats : List α) : NegotiationResult α :=
  if cam_formats.contains target then
    .selected target
  else
    match (cam_formats.filter isColor).filter (fun f => convertible f target) with
    | f :: _ => .selected f
    | [] =>
        match (cam_formats.filter isMono).filter (fun f => convertible f target) with
        | _ :: _ =>
            match ((cam_formats.filter isMono).filter
                (fun f => convertible f target))[0]? with
            | some f => .selected f
            | none => .indexError
        | [] => .aborted 1

/-- `setup_pixel_format` of the roi script.  Identical to the tiff version
except in the mono fallback, where the source sets
`convertible_mono_formats[2]` (index 2, not 0), raising `IndexError` when
fewer than three convertible mono formats exist. -/
def setup_pixel_format_roi {α : Type} [DecidableEq α]
    (isColor isMono : α → Bool) (convertible : α → α → Bool)
    (target : α) (cam_formats : List α) : NegotiationResult α :=
  if cam_formats.contains target then
    .selected target
  else
    match (cam_formats.filter isColor).filter (fun f => convertible f target) with
    | f :: _ => .selected f
    | [] =>
        match (cam_formats.filter isMono).filter (fun f => convertible f target) with
        | _ :: _ =>
            match ((cam_formats.filter isMono).filter
                (fun f => convertible f target))[2]? with
            | some f => .selected f
            | none => .indexError
        | [] => .aborted 1

/-- Modelled from the spec (§4.3, claim C3's wording): select the target
format itself if natively supported, otherwise the first color format
convertible to the target, otherwise the first mono format convertible to
the target; fail fatally with a non-zero exit code otherwise.  Used only to
compare the source functions against the spec's selection order. -/
def specNegotiate {α : Type} [DecidableEq α]
    (isColor isMono : α → Bool) (convertible : α → α → Bool)
    (target : α) (cam_formats : List α) : NegotiationResult α :=
  if cam_formats.contains target then
    .selected target
  else
    match ((cam_formats.filter isColor).filter (fun f => convertible f target)) with
    | f :: _ => .selected f
    | [] =>
        match ((cam_formats.filter isMono).filter (fun f => convertible f target)) with
        | f :: _ => .selected f
        | [] => .aborted 1

/-! ## Bayer-to-TIFF conversion path (tiff script, `Handler.__call__` else-branch)

Frames carry raw byte buffers (`List Nat`, each entry < 256 in intended use).
`np.frombuffer(buf, dtype=np.uint16)` raises
`ValueError: buffer size must be a multiple of element size` on an
odd-length buffer and otherwise reinterprets consecutive byte pairs as
native-endian (little-endian on the scripts' platforms) 16-bit samples.
`reshape((height, width))` is row-major.  `<< 4` on a `uint16` array
multiplies by 16 modulo 2^16.  The OpenCV demosaic
(`cv2.cvtColor(..., COLOR_BAYER_RG2RGB_EA)`) is an external collaborator and
is passed in as a parameter. -/

/-- The errors the conversion path can raise, in source order of their
raise sites: the `np.frombuffer` reinterpretation error (odd buffer length),
the descriptive size-mismatch `ValueError` of line 177 (carrying the
expected `width*height*2` and the actual buffer size embedded in its
message), the sample-count `ValueError` of line 181, and an `IndexError`
from the fixed-index debug reads at `[100,100]` / `[200,200]`. -/
inductive ConvError where
  | bufferNotMultipleOfElement (length : Nat)
  | sizeMismatch (expected actual : Nat)
  | sampleCountMismatch (expected actual : Nat)
  | indexError
  deriving DecidableEq, Repr

/-- The message of the line-177 `ValueError`: it embeds the expected size
`width*height*2` and the actual buffer size. -/
def sizeMismatchMessage (expected actual : Nat) : String :=
  "原始数据大小与指定的宽度和高度不匹配。期望 " ++ toString expected ++
    "，实际 " ++ toString actual

/-- `np.frombuffer(buf, dtype=np.uint16)` sample list: consecutive byte
pairs as little-endian 16-bit values (only meaningful on even-length
buffers; the caller checks the length first). -/
def u16OfBytes : List Nat → List Nat
  | b0 :: b1 :: rest => (b0 + 256 * b1) :: u16OfBytes rest
  | _ => []

/-- `np.frombuffer` itself: raises on a buffer whose byte length is not a
multiple of the 2-byte element size, else produces the sample list. -/
def frombufferU16 (buf : List Nat) : Except ConvError (List Nat) :=
  if buf.length % 2 = 0 then .ok (u16OfBytes buf)
  else .error (.bufferNotMultipleOfElement buf.length)

/-- `reshape((h, w))`, row-major: `h` consecutive rows of `w` samples. -/
def reshapeGrid (h w : Nat) (l : List Nat) : List (List Nat) :=
  match h with
  | 0 => []
  | Nat.succ h => l.take w :: reshapeGrid h w (l.drop w)

/-- The `<< 4` of line 192 on one `uint16` sample: multiply by 16 modulo
2^16 (numpy `uint16` arithmetic wraps). -/
def shl4u16 (v : Nat) : Nat := v * 16 % 65536

/-- The `<< 4` of line 192 applied to the whole 2-D array. -/
def shl4Grid (g : List (List Nat)) : List (List Nat) :=
  g.map (fun row => row.map shl4u16)

/-- The debug reads of lines 185-187 / 193-195:
`bayer_image_16bit[0, 0]`, `[100, 100]`, `[200, 200]` raise `IndexError`
unless the image has at least 201 rows and 201 columns. -/
def debugReadsInBounds (h w : Nat) : Bool :=
  decide (201 ≤ h) && decide (201 ≤ w)

/-- Result of a successful run of the conversion path: the TIFF file path
`output_<frameId>.tiff` and the demosaiced image written there. -/
structure TiffOut (α : Type) where
  path : String
  image : α
  deriving DecidableEq, Repr

/-- The Bayer-to-TIFF conversion path (tiff script lines 170-219), in source
order: `np.frombuffer` reinterpretation, the descriptive size check of line
176, the sample-count check of line 180, row-major reshape, the fixed-index
debug reads, the `<< 4` scaling, the demosaic (external, a parameter), and
the TIFF write to `output_<frameId>.tiff`. -/
def bayerTiffPath {α : Type} (demosaic : List (List Nat) → α)
    (width height : Nat) (buf : List Nat) (frameId : Nat) :
    Except ConvError (TiffOut α) :=
  match frombufferU16 buf with
  | .error e => .error e
  | .ok samples =>
      if buf.length ≠ width * height * 2 then
        .error (.sizeMismatch (width * height * 2) buf.length)
      else if samples.length ≠ width * height then
        .error (.sampleCountMismatch (width * height) samples.length)
      else
        let grid := reshapeGrid height width samples
        if debugReadsInBounds height width then
          .ok { path := "output_" ++ toString frameId ++ ".tiff",
                image := demosaic (shl4Grid grid) }
        else
          .error .indexError

/-! ## The acquisition callbacks (`Handler.__call__` of both scripts)

A frame's completion status; the source only ever compares against
`FrameStatus.Complete`. -/

inductive FrameStatus where
  | Complete
  | Incomplete
  | Aborted
  | TimedOut
  deriving DecidableEq, Repr

/-- Pixel format tags.  `Bgr8` is the module-level `opencv_display_format`
of both scripts; the other constructors stand for arbitrary camera-native
formats. -/
inductive PixelFormat where
  | Bgr8
  | BayerRG12
  | Mono8
  | Other (tag : Nat)
  deriving DecidableEq, Repr

/-- `opencv_display_format = PixelFormat.Bgr8` (both scripts). -/
def opencv_display_format : PixelFormat := .Bgr8

/-- A delivered frame as the callbacks see it: status, pixel format,
dimensions, raw byte buffer and driver-assigned id. -/
structure Frame where
  status : FrameStatus
  pixel_format : PixelFormat
  width : Nat
  height : Nat
  buffer : List Nat
  fid : Nat
  deriving DecidableEq, Repr

/-- `ENTER_KEY_CODE = 13`. -/
def ENTER_KEY_CODE : Int := 13

/-- Observable effects of one invocation of the tiff script's
`Handler.__call__`: whether `shutdown_event.set()` ran, how many times
`cam.queue_frame(frame)` was called, the exception (if any) that escaped
the call, the TIFF path written (if any), and whether `cv2.imshow` ran. -/
structure TiffCallEffects where
  shutdownSet : Bool
  queueFrameCalls : Nat
  raised : Option ConvError
  tiffWritten : Option String
  displayed : Bool
  deriving DecidableEq, Repr

/-- The tiff script's `Handler.__call__` (lines 150-228).  `key` is the
`cv2.waitKey(1)` result.  On the ENTER key the handler sets the shutdown
event and returns at once — before the trailing `cam.queue_frame(frame)`.
On a complete frame in the display format it shows the frame; on a complete
frame in any other format it runs the Bayer-to-TIFF path (an exception
there propagates out of the call, skipping both `cv2.imshow` and
`cam.queue_frame`).  On a non-complete frame it falls through.  The
`cam.queue_frame(frame)` of line 228 runs only when the call reaches the
end of the body without returning early or raising. -/
def tiff_handler_call {α : Type} (demosaic : List (List Nat) → α)
    (key : Int) (f : Frame) : TiffCallEffects :=
  if key = ENTER_KEY_CODE then
    { shutdownSet := true, queueFrameCalls := 0, raised := none,
      tiffWritten := none, displayed := false }
  else if f.status = .Complete then
    if f.pixel_format = opencv_display_format then
      { shutdownSet := false, queueFrameCalls := 1, raised := none,
        tiffWritten := none, displayed := true }
    else
      match bayerTiffPath demosaic f.width f.height f.buffer f.fid with
      | .error e =>
          { shutdownSet := false, queueFrameCalls := 0, raised := some e,
            tiffWritten := none, displayed := false }
      | .ok out =>
          { shutdownSet := false, queueFrameCalls := 1, raised := none,
            tiffWritten := some out.path, displayed := true }
  else
    { shutdownSet := false, queueFrameCalls := 1, raised := none,
      tiffWritten := none, displayed := false }

/-- Observable effects of one invocation of the roi script's
`Handler.__call__`: whether the frame was pushed onto `display_queue`
(the blocking `put(display, True)`, which completes once space is
available) and how many times `cam.queue_frame(frame)` was called. -/
structure RoiCallEffects where
  queuePut : Bool
  queueFrameCalls : Nat
  deriving DecidableEq, Repr

/-- The roi script's `Handler.__call__` (lines 204-222): a complete frame is
pushed (unconverted — the conversion block is commented out) onto the
display queue; `cam.queue_frame(frame)` is the final, unconditional
statement and runs exactly once per invocation once the blocking put has
completed. -/
def roi_handler_call (f : Frame) : RoiCallEffects :=
  if f.status = .Complete then
    { queuePut := true, queueFrameCalls := 1 }
  else
    { queuePut := false, queueFrameCalls := 1 }

/-! ## The roi consumer loop (roi script `main`, lines 249-279)

One loop iteration: `key = cv2.waitKey(1)`; `break` on ENTER; otherwise
`frame = handler.get_image()` — a `Queue.get(True)` that blocks on an empty
queue — then conversion/display/logging.  The body of a completed iteration
is embedded separately (`consumer_iteration`); the loop skeleton is a step
function over an explicit state whose key events model successive
`cv2.waitKey(1)` results. -/

/-- `frame.as_numpy_ndarray()`: the frame's samples (the roi frames are
single-channel; their numeric content is what mean/sum read). -/
def as_numpy_ndarray (f : Frame) : List Nat := f.buffer

/-- `frame.as_opencv_image()`: the image handed to `cv2.imshow`, read from
the frame itself. -/
def as_opencv_image (f : Frame) : List Nat := f.buffer

/-- `np.mean` over a frame's samples, as an exact rational. -/
def meanOf (l : List Nat) : ℚ := (l.sum : ℚ) / (l.length : ℚ)

/-- Observables of one completed iteration of the roi consumer loop body
(lines 255-279): the local `display` binding (kept to mirror the source),
the image passed to `cv2.imshow`, the mean and sum printed and written as
the `f"{mean_value},{total_sum}"` log line. -/
structure IterOut where
  display : Frame
  shown : List Nat
  meanV : ℚ
  sumV : Nat
  logLine : ℚ × Nat
  deriving DecidableEq, Repr

/-- The roi consumer loop body for one popped frame.  `convert` stands for
`frame.convert_pixel_format(opencv_display_format)` (a vmbpy collaborator);
the branch of lines 257-262 binds its result to `display`, but every later
use — `as_opencv_image`, `as_numpy_ndarray`, mean, sum, the log line, the
`cv2.imshow` argument — reads `frame` itself. -/
def consumer_iteration (convert : Frame → Frame) (f : Frame) : IterOut :=
  let display := if f.pixel_format = opencv_display_format then f else convert f
  let img_opencv := as_opencv_image f
  let img_numpy := as_numpy_ndarray f
  let mean_value := meanOf img_numpy
  let total_sum := img_numpy.sum
  { display := display, shown := img_opencv, meanV := mean_value,
    sumV := total_sum, logLine := (mean_value, total_sum) }

/-- Where the consumer loop's control currently is: at the top of the
`while True` (about to poll `cv2.waitKey`), blocked inside
`display_queue.get(True)` on an empty queue, or exited via `break`. -/
inductive ConsumerPhase where
  | atLoopTop
  | blockedOnPop
  | exitedLoop
  deriving DecidableEq, Repr

/-- Consumer-loop state: pending frames in the display queue (head = next
out), the pending `cv2.waitKey(1)` results (head = next poll; an empty list
polls as -1, no key), the control phase, and how many frames have been
processed. -/
structure ConsumerState where
  queue : List Frame
  keys : List Int
  phase : ConsumerPhase
  processed : Nat
  deriving DecidableEq, Repr

/-- One step of the roi consumer loop, with no producer running (the state
of affairs once acquisition has stopped or stalled).  At the loop top the
next key is polled: ENTER breaks out; any other key falls through to the
pop, which blocks when the queue is empty and otherwise pops and processes
one frame.  A step in the blocked phase re-examines only the queue: the
blocking `Queue.get(True)` has no timeout and no sentinel, and
`cv2.waitKey` runs on this same thread, so no pending key — ENTER included
— is observed while blocked. -/
def consumerStep (s : ConsumerState) : ConsumerState :=
  match s.phase with
  | .exitedLoop => s
  | .blockedOnPop =>
      match s.queue with
      | [] => s
      | _ :: rest =>
          { s with queue := rest, phase := .atLoopTop,
                   processed := s.processed + 1 }
  | .atLoopTop =>
      let key := s.keys.headD (-1)
      let keys := s.keys.tail
      if key = ENTER_KEY_CODE then
        { s with keys := keys, phase := .exitedLoop }
      else
        match s.queue with
        | [] => { s with keys := keys, phase := .blockedOnPop }
        | _ :: rest =>
            { s with keys := keys, queue := rest,
                     processed := s.processed + 1 }

/-! ## Camera setup (`setup_camera` of the roi script; the dark-current
script's configuration block)

The feature tree is a driver collaborator; whether each feature operation
raises (`AttributeError` / `VmbFeatureError` — feature absent or
unsupported) is an environment parameter. -/

/-- The guarded per-feature steps of the roi script's `setup_camera`: the
`ExposureAuto.set('Off')` block (lines 105-109), the
exposure/ROI/frame-rate block (lines 112-142), and the GigE packet-size
block (lines 151-159).  Each sits in its own `try/except (AttributeError,
VmbFeatureError)`. -/
inductive RoiSetupStep where
  | exposureAuto
  | exposureRoiFrameRate
  | packetSize
  deriving DecidableEq, Repr

/-- Result of the roi script's `setup_camera` against an environment saying
which steps raise: the function always completes (every step is guarded),
recording which adjustments were skipped. -/
structure RoiSetupOut where
  completed : Bool
  skipped : List RoiSetupStep
  deriving DecidableEq, Repr

/-- The roi script's `setup_camera` (lines 101-159): each failing step is
caught by its local `except` clause and skipped; control always reaches the
end of the function and streaming is started afterwards. -/
def setup_camera_roi (fails : RoiSetupStep → Bool) : RoiSetupOut :=
  let skipped1 := if fails .exposureAuto then [RoiSetupStep.exposureAuto] else []
  let skipped2 := skipped1 ++
    (if fails .exposureRoiFrameRate then [RoiSetupStep.exposureRoiFrameRate] else [])
  let skipped3 := skipped2 ++
    (if fails .packetSize then [RoiSetupStep.packetSize] else [])
  { completed := true, skipped := skipped3 }

/-- The per-feature configuration steps of the dark-current script's `main`
(lines 144-158): the guarded packet-size adjustment inside its
`setup_camera` (lines 106-115), then — outside any `try` — the
`set_pixel_format(Mono12)` call and the noise-correction selection
(`CorrectionSelector` / `CorrectionMode`, lines 154-157). -/
inductive DcStep where
  | packetSize
  | setMono12
  | correctionSelector
  | correctionMode
  deriving DecidableEq, Repr

/-- The dark-current script's configuration block against an environment
saying which steps raise.  The packet-size step is guarded and skipped on
failure; the Mono12 and correction steps are unguarded, so the first of
them that raises propagates out of `main` (the returned error names it)
and the acquisition loop below is never reached. -/
def dark_current_setup (fails : DcStep → Bool) : Except DcStep Unit :=
  if fails .setMono12 then .error .setMono12
  else if fails .correctionSelector then .error .correctionSelector
  else if fails .correctionMode then .error .correctionMode
  else .ok ()

/-! ## Helper lemmas -/

/-- `reshapeGrid` always yields exactly `h` rows. -/
theorem reshapeGrid_length (h w : Nat) (l : List Nat) :
    (reshapeGrid h w l).length = h := by
  induction h generalizing l with
  | zero => rfl
  | succ h ih => simp [reshapeGrid, ih]

/-- Row-major indexing: entry `(i, j)` of the reshaped grid is entry
`i * w + j` of the flat sample list. -/
theorem reshapeGrid_getElem (h w : Nat) (l : List Nat) (i j : Nat)
    (hi : i < h) (hj : j < w) :
    ((reshapeGrid h w l)[i]?.bind fun row => row[j]?) = l[i * w + j]? := by
  induction h generalizing l i with
  | zero => omega
  | succ h ih =>
      cases i with
      | zero =>
          simp only [reshapeGrid, List.getElem?_cons_zero, Option.some_bind,
            Nat.zero_mul, Nat.zero_add]
          rw [List.getElem?_take, if_pos hj]
      | succ i =>
          have hi' : i < h := Nat.lt_of_succ_lt_succ hi
          simp only [reshapeGrid, List.getElem?_cons_succ]
          rw [ih (l.drop w) i hi']
          rw [List.getElem?_drop]
          congr 1
          ring

/-- When the flat list has exactly `h * w` samples, every row of the
reshaped grid has width `w`. -/
theorem reshapeGrid_row_length (h w : Nat) (l : List Nat)
    (hl : l.length = h * w) :
    ∀ row ∈ reshapeGrid h w l, row.length = w := by
  induction h generalizing l with
  | zero => intro row hrow; simp [reshapeGrid] at hrow
  | succ h ih =>
      intro row hrow
      simp only [reshapeGrid, List.mem_cons] at hrow
      rcases hrow with hrow | hrow
      · subst hrow
        have hw : w ≤ (h + 1) * w := Nat.le_mul_of_pos_left w (Nat.succ_pos h)
        simp only [List.length_take, hl]
        omega
      · exact ih (l.drop w) (by simp [hl, Nat.succ_mul]) row hrow

/-- The queue-trace invariant: the buffer never exceeds the capacity, and
the completed pops followed by the current buffer contents are exactly the
accepted pushes, in order. -/
def QInv (C : Nat) (s : QState) : Prop :=
  s.buf.length ≤ C ∧ s.popped ++ s.buf = s.accepted

theorem qStep_inv (C : Nat) (s : QState) (op : QOp)
    (h : QInv C s) : QInv C (qStep C s op) := by
  obtain ⟨hlen, hfifo⟩ := h
  cases op with
  | push v =>
      by_cases hfull : s.buf.length < C
      · refine ⟨?_, ?_⟩
        · simp only [qStep, if_pos hfull, List.length_append, List.length_cons,
            List.length_nil]
          omega
        · simp [qStep, if_pos hfull, ← hfifo]
      · exact ⟨by simpa [qStep, hfull] using hlen, by simpa [qStep, hfull] using hfifo⟩
  | pop =>
      cases hbuf : s.buf with
      | nil =>
          rw [hbuf] at hfifo
          simp only [List.append_nil] at hfifo
          refine ⟨?_, ?_⟩
          · simp [qStep, hbuf]
          · simp [qStep, hbuf, hfifo]
      | cons x rest =>
          rw [hbuf] at hlen hfifo
          refine ⟨?_, ?_⟩
          · simp only [qStep, hbuf, List.length_cons] at hlen ⊢
            omega
          · simp only [qStep, hbuf]
            simpa using hfifo

theorem qRun_inv (C : Nat) (ops : List QOp) : QInv C (qRun C ops) := by
  have main : ∀ (ops : List QOp) (s : QState), QInv C s →
      QInv C (ops.foldl (qStep C) s) := by
    intro ops
    induction ops with
    | nil => intro s hs; exact hs
    | cons op rest ih => intro s hs; exact ih _ (qStep_inv C s op hs)
  exact main ops qInit ⟨by simp [qInit], by simp [qInit]⟩

/-! ## Claim theorems -/

/-- C4: reading a `width*height*2`-byte raw buffer as uint16 samples,
`reshape((height, width))` is row-major — entry `(i, j)` of the grid is flat
sample `i * width + j`, the grid has `height` rows, and (at the exact sample
count) every row has `width` samples — and the `<< 4` step maps every sample
`v < 4096` to exactly `v * 16` with no wraparound (the mod-2^16 reduction of
uint16 arithmetic never fires); in particular the 2×2 sample list
`[100, 200, 300, 400]` reshapes to `[[100, 200], [300, 400]]` and shifts to
`[[1600, 3200], [4800, 6400]]`. -/
theorem reshape_and_shift_semantics :
    (∀ (h w : Nat) (l : List Nat) (i j : Nat), i < h → j < w →
       ((reshapeGrid h w l)[i]?.bind fun row => row[j]?) = l[i * w + j]?) ∧
    (∀ (h w : Nat) (l : List Nat), (reshapeGrid h w l).length = h) ∧
    (∀ (h w : Nat) (l : List Nat), l.length = h * w →
       ∀ row ∈ reshapeGrid h w l, row.length = w) ∧
    (∀ v : Nat, v < 4096 → shl4u16 v = v * 16) ∧
    reshapeGrid 2 2 [100, 200, 300, 400] = [[100, 200], [300, 400]] ∧
    shl4Grid [[100, 200], [300, 400]] = [[1600, 3200], [4800, 6400]] := by
  refine ⟨?_, reshapeGrid_length, reshapeGrid_row_length, ?_, by decide, by decide⟩
  · intro h w l i j hi hj
    exact reshapeGrid_getElem h w l i j hi hj
  · intro v hv
    have : v * 16 < 65536 := by omega
    simpa [shl4u16] using Nat.mod_eq_of_lt this

/-- Witness for C4 at concrete inputs: entry `(1, 0)` of the reshaped 2×2
grid is flat sample 2, and `300 << 4 = 4800`. -/
theorem reshape_and_shift_semantics_witness :
    ((reshapeGrid 2 2 [100, 200, 300, 400])[1]?.bind fun row => row[0]?) =
      [100, 200, 300, 400][1 * 2 + 0]? ∧
    shl4u16 300 = 300 * 16 := by
  refine ⟨?_, ?_⟩
  · exact reshape_and_shift_semantics.1 2 2 [100, 200, 300, 400] 1 0
      (by decide) (by decide)
  · exact reshape_and_shift_semantics.2.2.2.1 300 (by decide)

/-- C6: for every trace of pushes and pops against the bounded display
queue of capacity `C` (the roi source constructs it with capacity 10), the
buffer never holds more than `C` items, a push against a full queue blocks
(leaving the queue unchanged and the item unaccepted) rather than growing
the queue or dropping anything, and the completed pops followed by the
remaining buffer equal the accepted pushes in order — so pops return items
in exactly the push order (FIFO). -/
theorem bounded_queue_capacity_fifo :
    display_queue_capacity = 10 ∧
    (∀ (C : Nat) (ops : List QOp),
       (qRun C ops).buf.length ≤ C ∧
       (qRun C ops).popped ++ (qRun C ops).buf = (qRun C ops).accepted) ∧
    (∀ (C : Nat) (s : QState) (v : Nat), s.buf.length = C →
       qStep C s (.push v) = s) := by
  refine ⟨rfl, ?_, ?_⟩
  · intro C ops
    exact qRun_inv C ops
  · intro C s v hfull
    simp [qStep, hfull]

/-- Witness for C6 at a concrete trace of 3 pushes and 2 pops at capacity
10, and a push against a concretely full queue of capacity 1. -/
theorem bounded_queue_capacity_fifo_witness :
    ((qRun 10 [.push 1, .push 2, .pop, .push 3, .pop]).buf.length ≤ 10 ∧
      (qRun 10 [.push 1, .push 2, .pop, .push 3, .pop]).popped ++
        (qRun 10 [.push 1, .push 2, .pop, .push 3, .pop]).buf =
        (qRun 10 [.push 1, .push 2, .pop, .push 3, .pop]).accepted) ∧
    qStep 1 ⟨[5], [5], []⟩ (.push 6) = ⟨[5], [5], []⟩ := by
  refine ⟨bounded_queue_capacity_fifo.2.1 10 _, ?_⟩
  exact bounded_queue_capacity_fifo.2.2 1 ⟨[5], [5], []⟩ 6 (by decide)

/-- C7: the shared CLI surface: any help flag among the arguments prints
usage and exits 0; otherwise more than one argument aborts with exit code 2
and a usage message; zero arguments proceeds with no id, and `get_camera`
then selects the first enumerated camera; when no camera is accessible
(empty enumeration, whether or not an id was given) the program aborts with
exit code 1. -/
theorem cli_exit_codes :
    (∀ args : List String, argsHasHelp args = true →
       parse_args args = .exited 0 true) ∧
    (∀ args : List String, argsHasHelp args = false → 1 < args.length →
       parse_args args = .exited 2 true) ∧
    parse_args [] = .proceed none ∧
    (∀ (c : String) (rest : List String),
       get_camera none ⟨c :: rest⟩ = .proceed c) ∧
    (∀ camera_id : Option String,
       get_camera camera_id ⟨[]⟩ = .exited 1 false) := by
  refine ⟨?_, ?_, rfl, ?_, ?_⟩
  · intro args h
    simp [parse_args, h]
  · intro args h1 h2
    simp only [parse_args, h1, Bool.false_eq_true, if_false]
    rw [if_pos h2]
  · intro c rest
    rfl
  · intro camera_id
    cases camera_id <;> rfl

/-- Witness for C7 at concrete invocations: `["-h"]` exits 0 with usage,
`["a", "b"]` exits 2 with usage, no camera accessible exits 1. -/
theorem cli_exit_codes_witness :
    parse_args ["-h"] = .exited 0 true ∧
    parse_args ["a", "b"] = .exited 2 true ∧
    get_camera (some "cam0") ⟨[]⟩ = .exited 1 false := by
  refine ⟨?_, ?_, cli_exit_codes.2.2.2.2 (some "cam0")⟩
  · exact cli_exit_codes.1 ["-h"] (by decide)
  · exact cli_exit_codes.2.1 ["a", "b"] (by decide) (by decide)

/-- C10: the help-flag scan of `parse_args` runs over all arguments before
the argument-count check, so an invocation with more than one argument that
includes `-h` or `/h` prints usage and exits 0, not 2. -/
theorem help_flag_overrides_argc (args : List String)
    (_hlen : 1 < args.length) (hmem : "-h" ∈ args ∨ "/h" ∈ args) :
    parse_args args = .exited 0 true ∧
    parse_args args ≠ .exited 2 true := by
  have hhelp : argsHasHelp args = true := by
    rcases hmem with h | h
    · exact List.any_eq_true.mpr ⟨"-h", h, by decide⟩
    · exact List.any_eq_true.mpr ⟨"/h", h, by decide⟩
  refine ⟨by simp [parse_args, hhelp], ?_⟩
  simp [parse_args, hhelp]

/-- Witness for C10 at the concrete invocation `["cam0", "-h"]`. -/
theorem help_flag_overrides_argc_witness :
    parse_args ["cam0", "-h"] = .exited 0 true ∧
    parse_args ["cam0", "-h"] ≠ .exited 2 true :=
  help_flag_overrides_argc ["cam0", "-h"] (by decide) (Or.inl (by decide))

/-- C9: in the roi consumer loop body, a frame whose format differs from
`Bgr8` does get a converted copy bound to `display`, but every observable —
the image shown, the mean, the sum, the log line — is computed from the
original frame, independently of the converter; swapping the converter (or
taking the no-conversion branch) changes nothing but the dead `display`
binding. -/
theorem conversion_copy_dead (convert convertB : Frame → Frame) (f : Frame) :
    (f.pixel_format ≠ opencv_display_format →
       (consumer_iteration convert f).display = convert f) ∧
    (consumer_iteration convert f).shown = as_opencv_image f ∧
    (consumer_iteration convert f).meanV = meanOf (as_numpy_ndarray f) ∧
    (consumer_iteration convert f).sumV = (as_numpy_ndarray f).sum ∧
    (consumer_iteration convert f).logLine =
      (meanOf (as_numpy_ndarray f), (as_numpy_ndarray f).sum) ∧
    { consumer_iteration convert f with display := f } =
      { consumer_iteration convertB f with display := f } := by
  refine ⟨?_, rfl, rfl, rfl, rfl, rfl⟩
  intro h
  simp [consumer_iteration, h]

/-- Witness for C9 at a concrete non-`Bgr8` frame and concrete converters. -/
theorem conversion_copy_dead_witness :
    (consumer_iteration id
        { status := .Complete, pixel_format := .BayerRG12, width := 1,
          height := 1, buffer := [7], fid := 0 }).display =
      id { status := FrameStatus.Complete, pixel_format := .BayerRG12,
           width := 1, height := 1, buffer := [7], fid := 0 } ∧
    { consumer_iteration id
        { status := .Complete, pixel_format := .BayerRG12, width := 1,
          height := 1, buffer := [7], fid := 0 } with
        display := { status := .Complete, pixel_format := .BayerRG12,
                     width := 1, height := 1, buffer := [7], fid := 0 } } =
      { consumer_iteration (fun x => x)
          { status := .Complete, pixel_format := .BayerRG12, width := 1,
            height := 1, buffer := [7], fid := 0 } with
          display := { status := .Complete, pixel_format := .BayerRG12,
                       width := 1, height := 1, buffer := [7], fid := 0 } } := by
  refine ⟨?_, ?_⟩
  · exact (conversion_copy_dead id (fun x => x)
      { status := .Complete, pixel_format := .BayerRG12, width := 1,
        height := 1, buffer := [7], fid := 0 }).1 (by decide)
  · exact (conversion_copy_dead id (fun x => x)
      { status := .Complete, pixel_format := .BayerRG12, width := 1,
        height := 1, buffer := [7], fid := 0 }).2.2.2.2.2

/-- C1 counterexample: the tiff script's callback does not call
`queue_frame` exactly once per delivered frame.  When the shutdown key
(ENTER) is observed the handler returns before the trailing
`cam.queue_frame(frame)` (zero calls, frame leaked to the stop-streaming
teardown), and when the conversion path raises, the exception propagates
past the un-`finally`-protected `queue_frame` (zero calls). -/
theorem callback_requeue_counterexample :
    (tiff_handler_call (fun g => g) 13
        { status := .Complete, pixel_format := .BayerRG12, width := 1,
          height := 1, buffer := [0, 0], fid := 0 }).queueFrameCalls = 0 ∧
    (tiff_handler_call (fun g => g) 13
        { status := .Complete, pixel_format := .BayerRG12, width := 1,
          height := 1, buffer := [0, 0], fid := 0 }).shutdownSet = true ∧
    (tiff_handler_call (fun g => g) 0
        { status := .Complete, pixel_format := .BayerRG12, width := 1,
          height := 1, buffer := [0], fid := 0 }).queueFrameCalls = 0 ∧
    (tiff_handler_call (fun g => g) 0
        { status := .Complete, pixel_format := .BayerRG12, width := 1,
          height := 1, buffer := [0], fid := 0 }).raised =
      some (.bufferNotMultipleOfElement 1) :=
  ⟨rfl, rfl, rfl, rfl⟩

/-- C1 amended: the roi script's callback calls `queue_frame` exactly once
per delivery regardless of completion status and branch; the tiff script's
callback calls it exactly once whenever the shutdown key was not observed
and no exception escaped the conversion path, but zero times when the
ENTER key is observed (it returns early after setting the shutdown event)
and zero times when the conversion path raises. -/
theorem callback_requeue_amended {α : Type} (demosaic : List (List Nat) → α)
    (key : Int) (f : Frame) :
    (roi_handler_call f).queueFrameCalls = 1 ∧
    (key = ENTER_KEY_CODE →
       (tiff_handler_call demosaic key f).queueFrameCalls = 0 ∧
       (tiff_handler_call demosaic key f).shutdownSet = true) ∧
    (key ≠ ENTER_KEY_CODE →
       (tiff_handler_call demosaic key f).raised = none →
       (tiff_handler_call demosaic key f).queueFrameCalls = 1) ∧
    ((tiff_handler_call demosaic key f).raised ≠ none →
       (tiff_handler_call demosaic key f).queueFrameCalls = 0) := by
  refine ⟨?_, ?_, ?_, ?_⟩
  · by_cases h : f.status = FrameStatus.Complete <;> simp [roi_handler_call, h]
  · intro hk
    simp [tiff_handler_call, hk]
  · intro hk hr
    by_cases hs : f.status = FrameStatus.Complete
    · by_cases hf : f.pixel_format = opencv_display_format
      · simp [tiff_handler_call, hk, hs, hf]
      · cases hres : bayerTiffPath demosaic f.width f.height f.buffer f.fid with
        | error e =>
            exfalso
            simp [tiff_handler_call, hk, hs, hf, hres] at hr
        | ok out => simp [tiff_handler_call, hk, hs, hf, hres]
    · simp [tiff_handler_call, hk, hs]
  · intro hr
    by_cases hk : key = ENTER_KEY_CODE
    · simp [tiff_handler_call, hk] at hr
    · by_cases hs : f.status = FrameStatus.Complete
      · by_cases hf : f.pixel_format = opencv_display_format
        · simp [tiff_handler_call, hk, hs, hf] at hr
        · cases hres : bayerTiffPath demosaic f.width f.height f.buffer f.fid with
          | error e => simp [tiff_handler_call, hk, hs, hf, hres]
          | ok out => simp [tiff_handler_call, hk, hs, hf, hres] at hr
      · simp [tiff_handler_call, hk, hs] at hr

/-- Witness for the amended C1 at concrete inputs: a complete `Bgr8` frame
with no shutdown key is requeued exactly once by both handlers, and the
ENTER key gives zero requeues with the shutdown event set. -/
theorem callback_requeue_amended_witness :
    (roi_handler_call
        { status := .Complete, pixel_format := .Bgr8, width := 1,
          height := 1, buffer := [0, 0], fid := 0 }).queueFrameCalls = 1 ∧
    (tiff_handler_call (fun g => g) 0
        { status := .Complete, pixel_format := .Bgr8, width := 1,
          height := 1, buffer := [0, 0], fid := 0 }).queueFrameCalls = 1 ∧
    (tiff_handler_call (fun g => g) 13
        { status := .Complete, pixel_format := .Bgr8, width := 1,
          height := 1, buffer := [0, 0], fid := 0 }).queueFrameCalls = 0 := by
  refine ⟨?_, ?_, ?_⟩
  · exact (callback_requeue_amended (fun g => g) 0
      { status := .Complete, pixel_format := .Bgr8, width := 1,
        height := 1, buffer := [0, 0], fid := 0 }).1
  · exact (callback_requeue_amended (fun g => g) 0
      { status := .Complete, pixel_format := .Bgr8, width := 1,
        height := 1, buffer := [0, 0], fid := 0 }).2.2.1 (by decide) rfl
  · exact ((callback_requeue_amended (fun g => g) 13
      { status := .Complete, pixel_format := .Bgr8, width := 1,
        height := 1, buffer := [0, 0], fid := 0 }).2.1 rfl).1

/-- C2 counterexample: a raw buffer exactly one byte short of
`width*height*2` (here width = height = 1, buffer length 1, expected 2)
does not raise the descriptive size-mismatch error: its odd length makes
the `np.frombuffer(..., dtype=np.uint16)` of line 173 — which runs before
the size check of line 176 — raise the generic multiple-of-element-size
`ValueError` first. -/
theorem size_mismatch_counterexample :
    bayerTiffPath (fun g => g) 1 1 [0] 0 =
      .error (.bufferNotMultipleOfElement 1) ∧
    ConvError.bufferNotMultipleOfElement 1 ≠ ConvError.sizeMismatch 2 1 ∧
    [0].length ≠ 1 * 1 * 2 :=
  ⟨rfl, by decide, by decide⟩

/-- C2 amended: a raw frame whose buffer length differs from
`width*height*2` never reaches demosaicing or the TIFF write; when the
mismatched length is even, the conversion raises the descriptive
size-mismatch error carrying the expected `width*height*2` and the actual
buffer size (the values embedded in its message), but when the length is
odd — in particular one byte short — the earlier uint16 reinterpretation
raises its own error instead. -/
theorem size_mismatch_amended {α : Type} (demosaic : List (List Nat) → α)
    (width height fid : Nat) (buf : List Nat)
    (hmis : buf.length ≠ width * height * 2) :
    (buf.length % 2 = 0 →
       bayerTiffPath demosaic width height buf fid =
         .error (.sizeMismatch (width * height * 2) buf.length)) ∧
    (buf.length % 2 ≠ 0 →
       bayerTiffPath demosaic width height buf fid =
         .error (.bufferNotMultipleOfElement buf.length)) ∧
    (∀ out : TiffOut α, bayerTiffPath demosaic width height buf fid ≠ .ok out) := by
  have heven : buf.length % 2 = 0 →
      bayerTiffPath demosaic width height buf fid =
        .error (.sizeMismatch (width * height * 2) buf.length) := by
    intro hpar
    simp [bayerTiffPath, frombufferU16, hpar, hmis]
  have hodd : buf.length % 2 ≠ 0 →
      bayerTiffPath demosaic width height buf fid =
        .error (.bufferNotMultipleOfElement buf.length) := by
    intro hpar
    simp [bayerTiffPath, frombufferU16, hpar]
  refine ⟨heven, hodd, ?_⟩
  intro out
  by_cases hpar : buf.length % 2 = 0
  · rw [heven hpar]
    intro hcontra
    exact Except.noConfusion hcontra
  · rw [hodd hpar]
    intro hcontra
    exact Except.noConfusion hcontra

/-- Witness for the amended C2 at concrete inputs: an even mismatch (4
bytes against expected 2) raises the descriptive error with both values;
an odd mismatch (1 byte) raises the reinterpretation error; neither
produces a TIFF. -/
theorem size_mismatch_amended_witness :
    bayerTiffPath (fun g => g) 1 1 [0, 0, 0, 0] 0 =
      .error (.sizeMismatch 2 4) ∧
    bayerTiffPath (fun g => g) 1 1 [9] 0 =
      .error (.bufferNotMultipleOfElement 1) ∧
    bayerTiffPath (fun g => g) 1 1 [0, 0, 0, 0] 0 ≠
      .ok { path := "output_0.tiff", image := [[0, 0]] } := by
  refine ⟨?_, ?_, ?_⟩
  · exact (size_mismatch_amended (fun g => g) 1 1 0 [0, 0, 0, 0]
      (by decide)).1 (by decide)
  · exact (size_mismatch_amended (fun g => g) 1 1 0 [9] (by decide)).2.1
      (by decide)
  · exact (size_mismatch_amended (fun g => g) 1 1 0 [0, 0, 0, 0]
      (by decide)).2.2 { path := "output_0.tiff", image := [[0, 0]] }

/-- C3 counterexample: with a convertibility table under which every format
converts to the target, no native support, no color formats, and three
convertible mono formats `[10, 11, 12]`, the roi script's negotiation
selects `12` — `convertible_mono_formats[2]`, not the first — while the
tiff script's selects `10`; and with a single convertible mono format the
roi script raises `IndexError` instead of selecting it. -/
theorem negotiation_mono_counterexample :
    setup_pixel_format_roi (fun _ => false) (fun _ => true) (fun _ _ => true)
        (0 : Nat) [10, 11, 12] = .selected 12 ∧
    setup_pixel_format_tiff (fun _ => false) (fun _ => true) (fun _ _ => true)
        (0 : Nat) [10, 11, 12] = .selected 10 ∧
    NegotiationResult.selected (12 : Nat) ≠ NegotiationResult.selected 10 ∧
    setup_pixel_format_roi (fun _ => false) (fun _ => true) (fun _ _ => true)
        (0 : Nat) [10] = .indexError :=
  ⟨rfl, rfl, by decide, rfl⟩

/-- C3 amended: the tiff script's negotiation follows the claimed order on
every input — it coincides with the spec's first-match selection (target
native, else first convertible color, else first convertible mono, else a
fatal abort with exit code 1) — and the roi script agrees on the native and
color branches and on the fatal abort, but its mono fallback selects the
convertible mono format at index 2 (raising `IndexError` when fewer than
three exist) rather than the first. -/
theorem negotiation_order_amended {α : Type} [DecidableEq α]
    (isColor isMono : α → Bool) (convertible : α → α → Bool)
    (target : α) (cam_formats : List α) :
    setup_pixel_format_tiff isColor isMono convertible target cam_formats =
      specNegotiate isColor isMono convertible target cam_formats ∧
    (cam_formats.contains target = true →
       setup_pixel_format_roi isColor isMono convertible target cam_formats =
         .selected target) ∧
    (∀ (f : α) (rest : List α), cam_formats.contains target = false →
       (cam_formats.filter isColor).filter (fun g => convertible g target) =
         f :: rest →
       setup_pixel_format_roi isColor isMono convertible target cam_formats =
         .selected f) ∧
    (cam_formats.contains target = false →
       (cam_formats.filter isColor).filter (fun g => convertible g target) = [] →
       (cam_formats.filter isMono).filter (fun g => convertible g target) = [] →
       setup_pixel_format_roi isColor isMono convertible target cam_formats =
         .aborted 1) ∧
    (∀ (m : α) (rest : List α), cam_formats.contains target = false →
       (cam_formats.filter isColor).filter (fun g => convertible g target) = [] →
       (cam_formats.filter isMono).filter (fun g => convertible g target) =
         m :: rest →
       setup_pixel_format_roi isColor isMono convertible target cam_formats =
         (match rest[1]? with
          | some f => .selected f
          | none => .indexError)) := by
  refine ⟨?_, ?_, ?_, ?_, ?_⟩
  · by_cases hc : cam_formats.contains target = true
    · unfold setup_pixel_format_tiff specNegotiate
      rw [hc]
      rfl
    · have hc' : cam_formats.contains target = false := by
        simpa using hc
      unfold setup_pixel_format_tiff specNegotiate
      rw [hc']
      cases hcol : (cam_formats.filter isColor).filter
          (fun g => convertible g target) with
      | cons f rest => rfl
      | nil =>
          cases hmono : (cam_formats.filter isMono).filter
              (fun g => convertible g target) with
          | nil => rfl
          | cons m rest => simp
  · intro hc
    unfold setup_pixel_format_roi
    rw [hc]
    rfl
  · intro f rest hc hcol
    unfold setup_pixel_format_roi
    rw [hc, hcol]
    rfl
  · intro hc hcol hmono
    unfold setup_pixel_format_roi
    rw [hc, hcol, hmono]
    rfl
  · intro m rest hc hcol hmono
    unfold setup_pixel_format_roi
    rw [hc, hcol, hmono]
    simp

/-- Witness for the amended C3 at a concrete format table (no native
target, no color formats, three convertible mono formats): the tiff
selection equals the spec selection, and the roi mono fallback lands on the
index-2 entry. -/
theorem negotiation_order_amended_witness :
    setup_pixel_format_tiff (fun _ => false) (fun _ => true) (fun _ _ => true)
        (0 : Nat) [10, 11, 12] =
      specNegotiate (fun _ => false) (fun _ => true) (fun _ _ => true)
        (0 : Nat) [10, 11, 12] ∧
    setup_pixel_format_roi (fun _ => false) (fun _ => true) (fun _ _ => true)
        (0 : Nat) [10, 11, 12] =
      (match [11, 12][1]? with
       | some f => NegotiationResult.selected f
       | none => NegotiationResult.indexError) := by
  refine ⟨?_, ?_⟩
  · exact (negotiation_order_amended (fun _ => false) (fun _ => true)
      (fun _ _ => true) (0 : Nat) [10, 11, 12]).1
  · exact (negotiation_order_amended (fun _ => false) (fun _ => true)
      (fun _ _ => true) (0 : Nat) [10, 11, 12]).2.2.2.2 10 [11, 12]
      (by decide) rfl rfl

/-- C5 counterexample: a consumer blocked on a pop from the empty queue
with the shutdown key (ENTER) already pending is a fixed point of the loop
step — the blocked `Queue.get(True)` is never woken, the key is never
observed, and the loop does not exit. -/
theorem blocked_pop_shutdown_counterexample :
    consumerStep { queue := [], keys := [ENTER_KEY_CODE],
                   phase := .blockedOnPop, processed := 0 } =
      { queue := [], keys := [ENTER_KEY_CODE],
        phase := .blockedOnPop, processed := 0 } ∧
    ConsumerPhase.blockedOnPop ≠ ConsumerPhase.exitedLoop :=
  ⟨rfl, by decide⟩

/-- C5 amended: the roi consumer polls the shutdown key only at the top of
an iteration, on the same thread as the blocking pop; a pop blocked on the
empty queue is never woken by a pending shutdown key (the blocked state is
a fixed point of the step function, so any number of steps leaves it
blocked), and the loop exits on the shutdown key only when the key is
observed at the loop top before popping — in which case it does exit
without processing a phantom frame. -/
theorem consumer_shutdown_amended (s : ConsumerState) :
    (s.phase = .blockedOnPop → s.queue = [] → consumerStep s = s) ∧
    (s.phase = .blockedOnPop → s.queue = [] → ∀ n : Nat, consumerStep^[n] s = s) ∧
    (s.phase = .atLoopTop → s.keys.headD (-1) = ENTER_KEY_CODE →
       (consumerStep s).phase = .exitedLoop ∧
       (consumerStep s).processed = s.processed) := by
  obtain ⟨q, ks, ph, pr⟩ := s
  refine ⟨?_, ?_, ?_⟩
  · intro hph hq
    simp only at hph hq
    subst hph hq
    rfl
  · intro hph hq n
    simp only at hph hq
    subst hph hq
    induction n with
    | zero => rfl
    | succ n ih => rw [Function.iterate_succ_apply, show
        consumerStep ⟨[], ks, .blockedOnPop, pr⟩ =
          ⟨[], ks, .blockedOnPop, pr⟩ from rfl, ih]
  · intro hph hkey
    simp only at hph hkey
    subst hph
    refine ⟨?_, ?_⟩ <;>
      · simp only [consumerStep]
        rw [hkey]
        rfl

/-- Witness for the amended C5 at concrete states: ten steps leave the
blocked-with-pending-ENTER state unchanged, and from the loop top with
ENTER pending one step exits without processing anything. -/
theorem consumer_shutdown_amended_witness :
    consumerStep^[10] { queue := [], keys := [ENTER_KEY_CODE],
                        phase := .blockedOnPop, processed := 0 } =
      { queue := [], keys := [ENTER_KEY_CODE],
        phase := .blockedOnPop, processed := 0 } ∧
    (consumerStep { queue := [], keys := [ENTER_KEY_CODE],
                    phase := .atLoopTop, processed := 0 }).phase =
      .exitedLoop ∧
    (consumerStep { queue := [], keys := [ENTER_KEY_CODE],
                    phase := .atLoopTop, processed := 0 }).processed = 0 := by
  refine ⟨?_, ?_, ?_⟩
  · exact (consumer_shutdown_amended
      { queue := [], keys := [ENTER_KEY_CODE],
        phase := .blockedOnPop, processed := 0 }).2.1 rfl rfl 10
  · exact ((consumer_shutdown_amended
      { queue := [], keys := [ENTER_KEY_CODE],
        phase := .atLoopTop, processed := 0 }).2.2 rfl rfl).1
  · exact ((consumer_shutdown_amended
      { queue := [], keys := [ENTER_KEY_CODE],
        phase := .atLoopTop, processed := 0 }).2.2 rfl rfl).2

/-- C8 counterexample: in the dark-current script a failure of the
noise-correction selection (`get_feature_by_name("CorrectionSelector")`
raising because the feature is absent) is not caught — lines 154-157 sit
outside any `try` — so the configuration block propagates the error instead
of skipping the adjustment and continuing. -/
theorem correction_failure_counterexample :
    dark_current_setup (fun s => decide (s = DcStep.correctionSelector)) =
      .error .correctionSelector ∧
    Except.error DcStep.correctionSelector ≠ (Except.ok () : Except DcStep Unit) :=
  ⟨rfl, fun h => Except.noConfusion h⟩

/-- C8 amended: the per-feature steps of the roi script's `setup_camera`
(exposure-auto, exposure/ROI/frame-rate, packet size) are each caught
locally and skipped on failure, so setup always completes and streaming
follows; but in the dark-current script only the packet-size step is
guarded — a failing `Mono12` pixel-format set or noise-correction
selector/mode step propagates out of the configuration block and the
acquisition loop is never reached. -/
theorem feature_failure_amended (fails : RoiSetupStep → Bool)
    (dfails : DcStep → Bool) :
    (setup_camera_roi fails).completed = true ∧
    (dfails .setMono12 = true →
       dark_current_setup dfails = .error .setMono12) ∧
    (dfails .setMono12 = false → dfails .correctionSelector = true →
       dark_current_setup dfails = .error .correctionSelector) ∧
    (dfails .setMono12 = false → dfails .correctionSelector = false →
       dfails .correctionMode = true →
       dark_current_setup dfails = .error .correctionMode) ∧
    (dfails .setMono12 = false → dfails .correctionSelector = false →
       dfails .correctionMode = false →
       dark_current_setup dfails = .ok ()) := by
  refine ⟨rfl, ?_, ?_, ?_, ?_⟩
  · intro h1
    simp [dark_current_setup, h1]
  · intro h1 h2
    simp [dark_current_setup, h1, h2]
  · intro h1 h2 h3
    simp [dark_current_setup, h1, h2, h3]
  · intro h1 h2 h3
    simp [dark_current_setup, h1, h2, h3]

/-- Witness for the amended C8 at concrete environments: with every roi
step failing, setup still completes; with only the correction selector
failing, the dark-current block errors out on it. -/
theorem feature_failure_amended_witness :
    (setup_camera_roi (fun _ => true)).completed = true ∧
    dark_current_setup (fun s => decide (s = DcStep.correctionSelector)) =
      .error .correctionSelector := by
  refine ⟨?_, ?_⟩
  · exact (feature_failure_amended (fun _ => true)
      (fun s => decide (s = DcStep.correctionSelector))).1
  · exact (feature_failure_amended (fun _ => true)
      (fun s => decide (s = DcStep.correctionSelector))).2.2.1 rfl rfl

end Vimbax
